import Mathlib

/-!
Shallow embedding of `src/mcpm/clients/managers/kilocode.py` (class `KiloCodeManager`)
together with the pieces of its base class `JSONClientManager` that the spec describes.
The manager edits one JSON config document of shape `{ "mcpServers": { name: entry } }`;
the operations verified here are `disable_server`, `enable_server`, `is_server_disabled`
and the constructor's config-path resolution.
-/

namespace KiloCode

/-- JSON values as produced by parsing the config file. Numbers are modelled as integers;
no claim distinguishes numeric subtypes. -/
inductive JSON where
  | null
  | bool (b : Bool)
  | num (n : Int)
  | str (s : String)
  | arr (elems : List JSON)
  | obj (fields : List (String × JSON))

/-- Lookup of a string key in a JSON object's field list (Python `d[k]` on a dict whose
key is known to be present, and the lookup step of `d.get(k, default)`). -/
def lookupKey : List (String × JSON) → String → Option JSON
  | [], _ => none
  | (k', v) :: rest, k => if k' = k then some v else lookupKey rest k

/-- Python `k in d` for a dict `d` given as a field list. -/
def containsKey (fields : List (String × JSON)) (k : String) : Bool :=
  (lookupKey fields k).isSome

/-- Python `d[k] = v` on a dict: replace the value of an existing key in place, append a
new binding otherwise. -/
def setKey : List (String × JSON) → String → JSON → List (String × JSON)
  | [], k, v => [(k, v)]
  | (k', v') :: rest, k, v =>
      if k' = k then (k, v) :: rest else (k', v') :: setKey rest k v

/-- Python `del d[k]` on a dict: remove the binding of `k`. A dict holds each key at most
once, so removing every occurrence from the field list models the deletion. -/
def delKey (fields : List (String × JSON)) (k : String) : List (String × JSON) :=
  fields.filter (fun p => p.1 != k)

/-- Test that the character list `s` begins with the character list `x`. -/
def listStartsWith : List Char → List Char → Bool
  | _, [] => true
  | [], _ :: _ => false
  | c :: cs, d :: ds => c == d && listStartsWith cs ds

/-- Test that the character list `x` occurs as a contiguous sublist of `s`. -/
def hasSub : List Char → List Char → Bool
  | [], x => x.isEmpty
  | s@(_ :: rest), x => listStartsWith s x || hasSub rest x

/-- Python substring test `x in s` for strings (the empty string occurs in every string). -/
def strContains (s x : String) : Bool :=
  hasSub s.data x.data

/-- Python membership `x in v` for a string `x` and an arbitrary value `v`: key test on a
dict, substring test on a string, element test on a list; on any other value Python raises
`TypeError`, modelled as `.error ()`. -/
def pyContains (x : String) : JSON → Except Unit Bool
  | .obj fields => .ok (containsKey fields x)
  | .str s => .ok (strContains s x)
  | .arr es => .ok (es.any fun e => match e with | .str s => s == x | _ => false)
  | _ => .error ()

/-- Python `v is True` for a JSON value: only the boolean `True` qualifies (`1`, `"true"`,
etc. are different objects). -/
def isPyTrue : JSON → Bool
  | .bool true => true
  | _ => false

/-- Modelled from the spec: `configure_key_name` comes from the base class
`JSONClientManager`, which is not under src/; the spec's data model and the
`_get_empty_config` template fix it to `"mcpServers"`. -/
def configure_key_name : String := "mcpServers"

/-- Top-level config document: the field list of the parsed top-level JSON object
(the data model's `{ "mcpServers": ... }` shape). -/
abbrev Document := List (String × JSON)

/-- Embedding of `KiloCodeManager._get_empty_config`: `{self.configure_key_name: {}}`. -/
def get_empty_config : Document := [(configure_key_name, .obj [])]

/-- Modelled from the spec: `_save_config` of the base class `JSONClientManager` (not under
src/) serializes the document to the config path and returns a success boolean; filesystem
failures are outside this model, so a save succeeds. -/
def save_config (_d : Document) : Bool := true

/-- Content of the config file before an operation is run. -/
inductive FileState where
  | missing
  | invalid
  | valid (d : Document)

/-- Modelled from the spec: `_load_config` of the base class `JSONClientManager` (not under
src/) reads and parses the file, substituting the empty template when the file is missing
or its content is not valid JSON. -/
def load_config : FileState → Document
  | .missing => get_empty_config
  | .invalid => get_empty_config
  | .valid d => d

/-- Outcome of one manager operation on a loaded document: the boolean returned to the
caller, whether a warning was logged, and the document passed to `_save_config`
(`none` when no save was attempted). -/
structure OpOutcome where
  result : Bool
  warned : Bool
  saved : Option Document

/-- Embedding of `KiloCodeManager.disable_server` as a function of the loaded document. Mirrors the
source line by line: the guard
`if self.configure_key_name not in config or server_name not in config[...]` logs a warning
and returns `False`; otherwise `config[...][server_name]["disabled"] = True` runs and the
result of `_save_config` is returned. `.error ()` marks a raised Python exception
(`TypeError` from `in`, indexing or item assignment on a non-dict). -/
def disable_server (config : Document) (server_name : String) : Except Unit OpOutcome :=
  match lookupKey config configure_key_name with
  | none => .ok ⟨false, true, none⟩
  | some servers =>
    match pyContains server_name servers with
    | .error e => .error e
    | .ok false => .ok ⟨false, true, none⟩
    | .ok true =>
      match servers with
      | .obj entries =>
        match lookupKey entries server_name with
        | some (.obj entry) =>
          let newConfig := setKey config configure_key_name
            (.obj (setKey entries server_name (.obj (setKey entry "disabled" (.bool true)))))
          .ok ⟨save_config newConfig, false, some newConfig⟩
        | some _ => .error ()
        | none => .error ()
      | _ => .error ()

/-- Embedding of `KiloCodeManager.enable_server` as a function of the loaded document. The first guard
is as in `disable_server`; then `if "disabled" not in config[...][server_name]` logs a
warning and returns `True` without saving; otherwise `del config[...][server_name]["disabled"]`
runs and the result of `_save_config` is returned. -/
def enable_server (config : Document) (server_name : String) : Except Unit OpOutcome :=
  match lookupKey config configure_key_name with
  | none => .ok ⟨false, true, none⟩
  | some servers =>
    match pyContains server_name servers with
    | .error e => .error e
    | .ok false => .ok ⟨false, true, none⟩
    | .ok true =>
      match servers with
      | .obj entries =>
        match lookupKey entries server_name with
        | some entry =>
          match pyContains "disabled" entry with
          | .error e => .error e
          | .ok false => .ok ⟨true, true, none⟩
          | .ok true =>
            match entry with
            | .obj entryFields =>
              let newConfig := setKey config configure_key_name
                (.obj (setKey entries server_name (.obj (delKey entryFields "disabled"))))
              .ok ⟨save_config newConfig, false, some newConfig⟩
            | _ => .error ()
        | none => .error ()
      | _ => .error ()

/-- Embedding of `KiloCodeManager.is_server_disabled` as a function of the loaded document: the Python
conjunction `key in config and name in config[key] and config[key][name].get("disabled", False) is True`,
with short-circuiting; `.get` on a non-dict raises `AttributeError`, modelled as `.error ()`. -/
def is_server_disabled (config : Document) (server_name : String) : Except Unit Bool :=
  match lookupKey config configure_key_name with
  | none => .ok false
  | some servers =>
    match pyContains server_name servers with
    | .error e => .error e
    | .ok false => .ok false
    | .ok true =>
      match servers with
      | .obj entries =>
        match lookupKey entries server_name with
        | some (.obj entryFields) =>
          .ok (match lookupKey entryFields "disabled" with
               | some v => isPyTrue v
               | none => false)
        | some _ => .error ()
        | none => .error ()
      | _ => .error ()

/-- Conformance of one JSON value to the data model's notion of a mapping. -/
def isObj : JSON → Bool
  | .obj _ => true
  | _ => false

/-- Conformance of the `mcpServers` value to the data model: a mapping whose values are
server entries, themselves mappings. -/
def wfServers : JSON → Bool
  | .obj entries => entries.all fun p => isObj p.2
  | _ => false

/-- Conformance of a loaded document to the spec's data model: whenever `mcpServers` is
present, it is a mapping from names to mapping entries. -/
def wfDoc (d : Document) : Bool :=
  match lookupKey d configure_key_name with
  | none => true
  | some servers => wfServers servers

/-- Document stored in the file after an operation outcome: the saved document when a
write happened, the previous content otherwise. -/
def applyOutcome (stored : Document) (o : OpOutcome) : Document :=
  match o.saved with
  | some d => d
  | none => stored

/-- Strip of trailing path separators applied by `posixpath.expanduser` to the home
directory before concatenation. -/
def rstripSlash (s : String) : String :=
  String.mk (s.data.reverse.dropWhile (fun c => c == '/')).reverse

/-- Python `os.path.expanduser` (posix flavour) restricted to the shapes the manager uses:
a path starting with `~/` has the tilde replaced by the home directory. -/
def expanduser (home p : String) : String :=
  if listStartsWith p.data ['~', '/'] then rstripSlash home ++ String.mk (p.data.drop 1)
  else p

/-- Last character of a string, if any. -/
def lastChar (s : String) : Option Char :=
  s.data.getLast?

/-- Modelled from the Python stdlib: one step of `ntpath.join` (Windows `os.path.join`) for
relative, drive-less components as the manager passes: append the component, inserting a
backslash when the accumulated path is nonempty and does not already end in a separator. -/
def ntJoinStep (acc p : String) : String :=
  if acc.data.isEmpty then p
  else if lastChar acc == some '\\' || lastChar acc == some '/' then acc ++ p
  else acc ++ "\\" ++ p

/-- Windows `os.path.join` over a first component and the remaining components. -/
def ntJoin (first : String) (rest : List String) : String :=
  rest.foldl ntJoinStep first

/-- Path components the Windows branch of `__init__` passes to `os.path.join` after the
`APPDATA` value. -/
def kiloPathTail : List String :=
  ["Code", "User", "globalStorage", "kilocode.kilo-code", "settings", "mcp_settings.json"]

/-- Default config path of `KiloCodeManager.__init__` as a function of the platform
identity string `self._system`, the `APPDATA` environment variable (`os.environ.get` with
default `""`), and the user home directory consulted by `expanduser`. -/
def resolveConfigPath (system : String) (appdata : Option String) (home : String) : String :=
  if system = "Darwin" then
    expanduser home "~/Library/Application Support/Code/User/globalStorage/kilocode.kilo-code/settings/mcp_settings.json"
  else if system = "Windows" then
    ntJoin (appdata.getD "") kiloPathTail
  else
    expanduser home "~/.config/Code/User/globalStorage/kilocode.kilo-code/settings/mcp_settings.json"

/-- Stored `config_path` after `KiloCodeManager.__init__`: the Python truthiness test
`if config_path:` keeps a truthy (nonempty) explicit path verbatim and falls back to
platform resolution otherwise. -/
def initConfigPath (config_path : Option String) (system : String) (appdata : Option String)
    (home : String) : String :=
  match config_path with
  | some p => if p ≠ "" then p else resolveConfigPath system appdata home
  | none => resolveConfigPath system appdata home

/-- Operations of the per-entry state machine. -/
inductive Op where
  | disable
  | enable

/-- One disable/enable call against the stored file content: load the document, run the
operation, keep the written document; a failing or raising run leaves the file unchanged
(no write happens on those paths). -/
def applyOp (stored : Document) (op : Op) (name : String) : Document :=
  match op with
  | .disable =>
    match disable_server stored name with
    | .ok o => applyOutcome stored o
    | .error _ => stored
  | .enable =>
    match enable_server stored name with
    | .ok o => applyOutcome stored o
    | .error _ => stored

/-- Stored document after a sequence of disable/enable calls for the same server name. -/
def runOps (stored : Document) (name : String) : List Op → Document
  | [] => stored
  | op :: rest => runOps (applyOp stored op name) name rest

/-- Two-state model of one server entry: the entry exists as a mapping and is either
active (no `disabled` key) or disabled (`disabled` exactly the boolean `true`); any other
shape — in particular `disabled: false` — is outside the model. -/
def goodEntryState (d : Document) (name : String) : Bool :=
  match lookupKey d configure_key_name with
  | some (.obj entries) =>
    match lookupKey entries name with
    | some (.obj fields) =>
      match lookupKey fields "disabled" with
      | none => true
      | some v => isPyTrue v
    | _ => false
  | _ => false

theorem lookupKey_setKey_self (l : List (String × JSON)) (k : String) (v : JSON) :
    lookupKey (setKey l k v) k = some v := by
  induction l with
  | nil => simp [setKey, lookupKey]
  | cons hd tl ih =>
    obtain ⟨k', v'⟩ := hd
    by_cases h : k' = k
    · simp [setKey, h, lookupKey]
    · simp [setKey, h, lookupKey, ih]

theorem lookupKey_setKey_ne (l : List (String × JSON)) (k k' : String) (v : JSON)
    (h : k' ≠ k) : lookupKey (setKey l k v) k' = lookupKey l k' := by
  induction l with
  | nil => simp [setKey, lookupKey, Ne.symm h]
  | cons hd tl ih =>
    obtain ⟨k₀, v₀⟩ := hd
    by_cases h0 : k₀ = k
    · subst h0
      simp [setKey, lookupKey, Ne.symm h]
    · simp [setKey, h0, lookupKey, ih]

theorem lookupKey_delKey_self (l : List (String × JSON)) (k : String) :
    lookupKey (delKey l k) k = none := by
  induction l with
  | nil => rfl
  | cons hd tl ih =>
    obtain ⟨k₀, v₀⟩ := hd
    by_cases h0 : k₀ = k
    · subst h0
      simpa [delKey, List.filter_cons] using ih
    · simp only [delKey, List.filter_cons] at ih ⊢
      simp [h0, lookupKey, ih]

theorem lookupKey_delKey_ne (l : List (String × JSON)) (k k' : String)
    (h : k' ≠ k) : lookupKey (delKey l k) k' = lookupKey l k' := by
  induction l with
  | nil => simp [delKey, lookupKey]
  | cons hd tl ih =>
    obtain ⟨k₀, v₀⟩ := hd
    by_cases h0 : k₀ = k
    · subst h0
      simp only [delKey, List.filter_cons] at ih ⊢
      simp [lookupKey, Ne.symm h, ih]
    · simp only [delKey, List.filter_cons] at ih ⊢
      simp [h0, lookupKey, ih]

theorem all_of_lookupKey {p : String × JSON → Bool} {l : List (String × JSON)}
    (hall : l.all p = true) {k : String} {v : JSON} (h : lookupKey l k = some v) :
    p (k, v) = true := by
  induction l with
  | nil => simp [lookupKey] at h
  | cons hd tl ih =>
    obtain ⟨k₀, v₀⟩ := hd
    simp only [List.all_cons, Bool.and_eq_true] at hall
    by_cases h0 : k₀ = k
    · subst h0
      simp only [lookupKey, if_pos rfl] at h
      rw [show v₀ = v from Option.some.inj h] at hall
      exact hall.1
    · simp only [lookupKey, if_neg h0] at h
      exact ih hall.2 h

theorem disable_server_found (config : Document) (name : String)
    (entries fields : List (String × JSON))
    (h1 : lookupKey config configure_key_name = some (.obj entries))
    (h2 : lookupKey entries name = some (.obj fields)) :
    disable_server config name =
      .ok ⟨save_config (setKey config configure_key_name
             (.obj (setKey entries name (.obj (setKey fields "disabled" (.bool true)))))),
           false,
           some (setKey config configure_key_name
             (.obj (setKey entries name (.obj (setKey fields "disabled" (.bool true))))))⟩ := by
  unfold disable_server
  rw [h1]
  simp [pyContains, containsKey, h2]

theorem disable_server_not_found (config : Document) (name : String)
    (h : lookupKey config configure_key_name = none ∨
         ∃ entries, lookupKey config configure_key_name = some (.obj entries) ∧
           lookupKey entries name = none) :
    disable_server config name = .ok ⟨false, true, none⟩ := by
  unfold disable_server
  rcases h with h | ⟨entries, h1, h2⟩
  · rw [h]
  · rw [h1]
    simp [pyContains, containsKey, h2]

theorem enable_server_found (config : Document) (name : String)
    (entries fields : List (String × JSON)) (v : JSON)
    (h1 : lookupKey config configure_key_name = some (.obj entries))
    (h2 : lookupKey entries name = some (.obj fields))
    (h3 : lookupKey fields "disabled" = some v) :
    enable_server config name =
      .ok ⟨save_config (setKey config configure_key_name
             (.obj (setKey entries name (.obj (delKey fields "disabled"))))),
           false,
           some (setKey config configure_key_name
             (.obj (setKey entries name (.obj (delKey fields "disabled")))))⟩ := by
  unfold enable_server
  rw [h1]
  simp [pyContains, containsKey, h2, h3]

theorem enable_server_already_enabled (config : Document) (name : String)
    (entries fields : List (String × JSON))
    (h1 : lookupKey config configure_key_name = some (.obj entries))
    (h2 : lookupKey entries name = some (.obj fields))
    (h3 : lookupKey fields "disabled" = none) :
    enable_server config name = .ok ⟨true, true, none⟩ := by
  unfold enable_server
  rw [h1]
  simp [pyContains, containsKey, h2, h3]

theorem enable_server_not_found (config : Document) (name : String)
    (h : lookupKey config configure_key_name = none ∨
         ∃ entries, lookupKey config configure_key_name = some (.obj entries) ∧
           lookupKey entries name = none) :
    enable_server config name = .ok ⟨false, true, none⟩ := by
  unfold enable_server
  rcases h with h | ⟨entries, h1, h2⟩
  · rw [h]
  · rw [h1]
    simp [pyContains, containsKey, h2]

theorem is_server_disabled_found (config : Document) (name : String)
    (entries fields : List (String × JSON))
    (h1 : lookupKey config configure_key_name = some (.obj entries))
    (h2 : lookupKey entries name = some (.obj fields)) :
    is_server_disabled config name =
      .ok (match lookupKey fields "disabled" with
           | some v => isPyTrue v
           | none => false) := by
  unfold is_server_disabled
  rw [h1]
  simp [pyContains, containsKey, h2]

theorem is_server_disabled_not_found (config : Document) (name : String)
    (h : lookupKey config configure_key_name = none ∨
         ∃ entries, lookupKey config configure_key_name = some (.obj entries) ∧
           lookupKey entries name = none) :
    is_server_disabled config name = .ok false := by
  unfold is_server_disabled
  rcases h with h | ⟨entries, h1, h2⟩
  · rw [h]
  · rw [h1]
    simp [pyContains, containsKey, h2]

/-- C1: for every loaded config document and server name, `disable_server` returns the
failure indicator `False` with a logged warning and no write when the `mcpServers` key is
absent or the name is not a key within it; otherwise it sets the entry's `disabled` key to
the boolean `true` and persists the updated document, returning the `_save_config` result.
Both paths return normally (`.ok`), so no exception is raised for these business-logic
conditions. -/
theorem C1_disable_server_contract (config : Document) (name : String) :
    ((lookupKey config configure_key_name = none ∨
      (∃ entries, lookupKey config configure_key_name = some (.obj entries) ∧
        lookupKey entries name = none)) →
      disable_server config name = .ok ⟨false, true, none⟩) ∧
    (∀ entries fields, lookupKey config configure_key_name = some (.obj entries) →
      lookupKey entries name = some (.obj fields) →
      disable_server config name =
        .ok ⟨save_config (setKey config configure_key_name
               (.obj (setKey entries name (.obj (setKey fields "disabled" (.bool true)))))),
             false,
             some (setKey config configure_key_name
               (.obj (setKey entries name (.obj (setKey fields "disabled" (.bool true))))))⟩) := by
  refine ⟨disable_server_not_found config name, ?_⟩
  intro entries fields h1 h2
  exact disable_server_found config name entries fields h1 h2

/-- Witness for C1: a present server gains `disabled: true` and is saved; an absent name
fails with a warning and no write. -/
theorem C1_witness :
    disable_server [("mcpServers", JSON.obj [("s", JSON.obj [("command", JSON.str "python")])])] "s" =
      .ok ⟨true, false,
           some [("mcpServers", JSON.obj [("s", JSON.obj [("command", JSON.str "python"),
                   ("disabled", JSON.bool true)])])]⟩ ∧
    disable_server [("mcpServers", JSON.obj [])] "absent" = .ok ⟨false, true, none⟩ := by
  constructor
  · exact (C1_disable_server_contract
      [("mcpServers", JSON.obj [("s", JSON.obj [("command", JSON.str "python")])])] "s").2
      [("s", JSON.obj [("command", JSON.str "python")])] [("command", JSON.str "python")] rfl rfl
  · exact (C1_disable_server_contract [("mcpServers", JSON.obj [])] "absent").1
      (Or.inr ⟨[], rfl, rfl⟩)

/-- C2: `enable_server` returns `False` when the `mcpServers` key is absent or the name is
not a key within it; when the entry has a `disabled` key — whatever its value — it removes
that key and persists the document, returning the `_save_config` result. -/
theorem C2_enable_server_contract (config : Document) (name : String) :
    ((lookupKey config configure_key_name = none ∨
      (∃ entries, lookupKey config configure_key_name = some (.obj entries) ∧
        lookupKey entries name = none)) →
      enable_server config name = .ok ⟨false, true, none⟩) ∧
    (∀ entries fields v, lookupKey config configure_key_name = some (.obj entries) →
      lookupKey entries name = some (.obj fields) →
      lookupKey fields "disabled" = some v →
      enable_server config name =
        .ok ⟨save_config (setKey config configure_key_name
               (.obj (setKey entries name (.obj (delKey fields "disabled"))))),
             false,
             some (setKey config configure_key_name
               (.obj (setKey entries name (.obj (delKey fields "disabled")))))⟩) := by
  refine ⟨enable_server_not_found config name, ?_⟩
  intro entries fields v h1 h2 h3
  exact enable_server_found config name entries fields v h1 h2 h3

/-- Witness for C2: a `disabled` key with a non-boolean value is still removed and the
document saved; an absent name fails without a write. -/
theorem C2_witness :
    enable_server [("mcpServers", JSON.obj [("s", JSON.obj [("disabled", JSON.str "yes"),
        ("command", JSON.str "python")])])] "s" =
      .ok ⟨true, false,
           some [("mcpServers", JSON.obj [("s", JSON.obj [("command", JSON.str "python")])])]⟩ ∧
    enable_server [("mcpServers", JSON.obj [])] "absent" = .ok ⟨false, true, none⟩ := by
  constructor
  · exact (C2_enable_server_contract
      [("mcpServers", JSON.obj [("s", JSON.obj [("disabled", JSON.str "yes"),
        ("command", JSON.str "python")])])] "s").2
      [("s", JSON.obj [("disabled", JSON.str "yes"), ("command", JSON.str "python")])]
      [("disabled", JSON.str "yes"), ("command", JSON.str "python")] (JSON.str "yes") rfl rfl rfl
  · exact (C2_enable_server_contract [("mcpServers", JSON.obj [])] "absent").1
      (Or.inr ⟨[], rfl, rfl⟩)

/-- C5: `enable_server` on an entry without a `disabled` key reports success (`True`) and
performs no write: the stored document after the call is exactly the document before it. -/
theorem C5_enable_server_noop (config : Document) (name : String)
    (entries fields : List (String × JSON))
    (h1 : lookupKey config configure_key_name = some (.obj entries))
    (h2 : lookupKey entries name = some (.obj fields))
    (h3 : lookupKey fields "disabled" = none) :
    enable_server config name = .ok ⟨true, true, none⟩ ∧
    applyOp config .enable name = config := by
  have he := enable_server_already_enabled config name entries fields h1 h2 h3
  exact ⟨he, by simp [applyOp, he, applyOutcome]⟩

/-- Witness for C5 at a concrete already-enabled entry. -/
theorem C5_witness :
    enable_server [("mcpServers", JSON.obj [("s", JSON.obj [("command", JSON.str "python")])])] "s" =
      .ok ⟨true, true, none⟩ ∧
    applyOp [("mcpServers", JSON.obj [("s", JSON.obj [("command", JSON.str "python")])])]
      .enable "s" =
      [("mcpServers", JSON.obj [("s", JSON.obj [("command", JSON.str "python")])])] :=
  C5_enable_server_noop _ "s" [("s", JSON.obj [("command", JSON.str "python")])]
    [("command", JSON.str "python")] rfl rfl rfl

/-- C10: whenever `disable_server` or `enable_server` returns normally with the failure
indicator `False`, no document was passed to `_save_config`: the stored file is untouched. -/
theorem C10_failure_no_write (config : Document) (name : String) (o : OpOutcome) :
    (disable_server config name = .ok o → o.result = false → o.saved = none) ∧
    (enable_server config name = .ok o → o.result = false → o.saved = none) := by
  constructor
  · intro h hr
    unfold disable_server at h
    repeat' split at h
    all_goals cases h
    all_goals simp_all [save_config]
  · intro h hr
    unfold enable_server at h
    repeat' split at h
    all_goals cases h
    all_goals simp_all [save_config]

/-- Witness for C10: a disable and an enable of a name missing from an empty `mcpServers`
section both return `False` and write nothing. -/
theorem C10_witness :
    (⟨false, true, none⟩ : OpOutcome).saved = none ∧
    (⟨false, true, none⟩ : OpOutcome).saved = none :=
  ⟨(C10_failure_no_write [("mcpServers", JSON.obj [])] "s" ⟨false, true, none⟩).1 rfl rfl,
   (C10_failure_no_write [("mcpServers", JSON.obj [])] "s" ⟨false, true, none⟩).2 rfl rfl⟩

theorem isPyTrue_iff (v : JSON) : isPyTrue v = true ↔ v = JSON.bool true := by
  cases v with
  | null => simp [isPyTrue]
  | bool b => cases b <;> simp [isPyTrue]
  | num n => simp [isPyTrue]
  | str s => simp [isPyTrue]
  | arr es => simp [isPyTrue]
  | obj fs => simp [isPyTrue]

theorem isObj_obj {v : JSON} (h : isObj v = true) : ∃ fs, v = JSON.obj fs := by
  cases v with
  | obj fs => exact ⟨fs, rfl⟩
  | null => simp [isObj] at h
  | bool b => simp [isObj] at h
  | num n => simp [isObj] at h
  | str s => simp [isObj] at h
  | arr es => simp [isObj] at h

theorem wfServers_obj {v : JSON} (h : wfServers v = true) :
    ∃ entries, v = JSON.obj entries ∧ entries.all (fun p => isObj p.2) = true := by
  cases v with
  | obj entries => exact ⟨entries, rfl, h⟩
  | null => simp [wfServers] at h
  | bool b => simp [wfServers] at h
  | num n => simp [wfServers] at h
  | str s => simp [wfServers] at h
  | arr es => simp [wfServers] at h

/-- C4: on a document conforming to the data model, `is_server_disabled` never raises and
returns `true` exactly when `mcpServers` exists, the name exists within it, and that
entry's `disabled` key is exactly the boolean `true`; every other condition (missing
section, missing name, missing key, or a non-`True` value such as `false`, `1` or
`"true"`) yields `false`. The operation returns only a boolean — it saves nothing, so the
stored document is untouched. -/
theorem C4_is_server_disabled_iff (config : Document) (name : String)
    (hwf : wfDoc config = true) :
    ∃ b, is_server_disabled config name = .ok b ∧
      (b = true ↔ ∃ entries fields,
        lookupKey config configure_key_name = some (JSON.obj entries) ∧
        lookupKey entries name = some (JSON.obj fields) ∧
        lookupKey fields "disabled" = some (JSON.bool true)) := by
  cases hA : lookupKey config configure_key_name with
  | none =>
    refine ⟨false, is_server_disabled_not_found config name (Or.inl hA), ?_⟩
    simp only [Bool.false_eq_true, false_iff]
    rintro ⟨entries, fields, h1, -⟩
    cases h1
  | some servers =>
    unfold wfDoc at hwf
    rw [hA] at hwf
    obtain ⟨entries, rfl, hall⟩ := wfServers_obj hwf
    cases hE : lookupKey entries name with
    | none =>
      refine ⟨false, is_server_disabled_not_found config name (Or.inr ⟨entries, hA, hE⟩), ?_⟩
      simp only [Bool.false_eq_true, false_iff]
      rintro ⟨entries', fields, h1, h2, -⟩
      obtain rfl : entries = entries' := JSON.obj.inj (Option.some.inj h1)
      rw [hE] at h2
      cases h2
    | some entry =>
      obtain ⟨fields, rfl⟩ := isObj_obj (all_of_lookupKey hall hE)
      have hfound := is_server_disabled_found config name entries fields hA hE
      cases hD : lookupKey fields "disabled" with
      | none =>
        rw [hD] at hfound
        refine ⟨false, hfound, ?_⟩
        simp only [Bool.false_eq_true, false_iff]
        rintro ⟨entries', fields', h1, h2, h3⟩
        obtain rfl : entries = entries' := JSON.obj.inj (Option.some.inj h1)
        obtain rfl : fields = fields' := JSON.obj.inj (Option.some.inj (hE.symm.trans h2))
        rw [hD] at h3
        cases h3
      | some v =>
        rw [hD] at hfound
        refine ⟨isPyTrue v, hfound, ?_⟩
        constructor
        · intro hv
          refine ⟨entries, fields, rfl, hE, ?_⟩
          rw [hD, (isPyTrue_iff v).mp hv]
        · rintro ⟨entries', fields', h1, h2, h3⟩
          obtain rfl : entries = entries' := JSON.obj.inj (Option.some.inj h1)
          obtain rfl : fields = fields' := JSON.obj.inj (Option.some.inj (hE.symm.trans h2))
          rw [hD] at h3
          rw [Option.some.inj h3]
          rfl

/-- Witness for C4 at a document whose entry carries `disabled: 1` — a non-`True` value,
so the predicate reports `false`. -/
theorem C4_witness :
    ∃ b, is_server_disabled
        [("mcpServers", JSON.obj [("s", JSON.obj [("disabled", JSON.num 1)])])] "s" = .ok b ∧
      (b = true ↔ ∃ entries fields,
        lookupKey [("mcpServers", JSON.obj [("s", JSON.obj [("disabled", JSON.num 1)])])]
          configure_key_name = some (JSON.obj entries) ∧
        lookupKey entries "s" = some (JSON.obj fields) ∧
        lookupKey fields "disabled" = some (JSON.bool true)) :=
  C4_is_server_disabled_iff
    [("mcpServers", JSON.obj [("s", JSON.obj [("disabled", JSON.num 1)])])] "s" rfl

/-- C3: for every config in which the named server exists under `mcpServers`, a successful
`disable_server` makes `is_server_disabled` report `true`, and a subsequent successful
`enable_server` makes it report `false` again. -/
theorem C3_round_trip (config : Document) (name : String)
    (entries fields : List (String × JSON))
    (h1 : lookupKey config configure_key_name = some (.obj entries))
    (h2 : lookupKey entries name = some (.obj fields)) :
    ∃ d1 d2,
      disable_server config name = .ok ⟨true, false, some d1⟩ ∧
      is_server_disabled d1 name = .ok true ∧
      enable_server d1 name = .ok ⟨true, false, some d2⟩ ∧
      is_server_disabled d2 name = .ok false := by
  have hA1 : lookupKey
      (setKey config configure_key_name
        (.obj (setKey entries name (.obj (setKey fields "disabled" (.bool true))))))
      configure_key_name =
      some (.obj (setKey entries name (.obj (setKey fields "disabled" (.bool true))))) :=
    lookupKey_setKey_self _ _ _
  have hE1 : lookupKey (setKey entries name (.obj (setKey fields "disabled" (.bool true)))) name =
      some (.obj (setKey fields "disabled" (.bool true))) :=
    lookupKey_setKey_self _ _ _
  have hD1 : lookupKey (setKey fields "disabled" (.bool true)) "disabled" =
      some (.bool true) :=
    lookupKey_setKey_self _ _ _
  refine ⟨_, _, disable_server_found config name entries fields h1 h2, ?_,
    enable_server_found _ name _ _ (JSON.bool true) hA1 hE1 hD1, ?_⟩
  · have h := is_server_disabled_found _ name _ _ hA1 hE1
    rw [hD1] at h
    exact h
  · have hA2 := lookupKey_setKey_self
      (setKey config configure_key_name
        (.obj (setKey entries name (.obj (setKey fields "disabled" (.bool true))))))
      configure_key_name
      (JSON.obj (setKey (setKey entries name (.obj (setKey fields "disabled" (.bool true))))
        name (.obj (delKey (setKey fields "disabled" (.bool true)) "disabled"))))
    have hE2 := lookupKey_setKey_self
      (setKey entries name (.obj (setKey fields "disabled" (.bool true)))) name
      (JSON.obj (delKey (setKey fields "disabled" (.bool true)) "disabled"))
    have h := is_server_disabled_found _ name _ _ hA2 hE2
    rw [lookupKey_delKey_self] at h
    exact h

/-- Witness for C3 at the test suite's one-server config. -/
theorem C3_witness :
    ∃ d1 d2,
      disable_server [("mcpServers", JSON.obj [("test-server", JSON.obj
          [("command", JSON.str "python")])])] "test-server" = .ok ⟨true, false, some d1⟩ ∧
      is_server_disabled d1 "test-server" = .ok true ∧
      enable_server d1 "test-server" = .ok ⟨true, false, some d2⟩ ∧
      is_server_disabled d2 "test-server" = .ok false :=
  C3_round_trip _ "test-server" [("test-server", JSON.obj [("command", JSON.str "python")])]
    [("command", JSON.str "python")] rfl rfl

/-- C9: a successful `disable_server` changes only the named entry's `disabled` key in the
persisted document: every other top-level key, every other server entry, and every other
field of the named entry are looked up unchanged, and the entry's `disabled` key becomes
exactly the boolean `true`. -/
theorem C9_disable_server_frame (config : Document) (name : String)
    (entries fields : List (String × JSON))
    (h1 : lookupKey config configure_key_name = some (.obj entries))
    (h2 : lookupKey entries name = some (.obj fields)) :
    ∃ entries2 fields2,
      disable_server config name =
        .ok ⟨true, false, some (setKey config configure_key_name (.obj entries2))⟩ ∧
      entries2 = setKey entries name (.obj fields2) ∧
      fields2 = setKey fields "disabled" (.bool true) ∧
      lookupKey (setKey config configure_key_name (.obj entries2)) configure_key_name =
        some (.obj entries2) ∧
      (∀ k, k ≠ configure_key_name →
        lookupKey (setKey config configure_key_name (.obj entries2)) k = lookupKey config k) ∧
      lookupKey entries2 name = some (.obj fields2) ∧
      (∀ m, m ≠ name → lookupKey entries2 m = lookupKey entries m) ∧
      lookupKey fields2 "disabled" = some (.bool true) ∧
      (∀ k, k ≠ "disabled" → lookupKey fields2 k = lookupKey fields k) := by
  refine ⟨setKey entries name (.obj (setKey fields "disabled" (.bool true))),
    setKey fields "disabled" (.bool true),
    disable_server_found config name entries fields h1 h2, rfl, rfl,
    lookupKey_setKey_self _ _ _,
    fun k hk => lookupKey_setKey_ne _ _ _ _ hk,
    lookupKey_setKey_self _ _ _,
    fun m hm => lookupKey_setKey_ne _ _ _ _ hm,
    lookupKey_setKey_self _ _ _,
    fun k hk => lookupKey_setKey_ne _ _ _ _ hk⟩

/-- Witness for C9 at a two-server config with an extra top-level key. -/
theorem C9_witness :
    ∃ entries2 fields2,
      disable_server [("version", JSON.num 1),
          ("mcpServers", JSON.obj [("a", JSON.obj [("command", JSON.str "python")]),
            ("b", JSON.obj [("command", JSON.str "node")])])] "a" =
        .ok ⟨true, false,
          some (setKey [("version", JSON.num 1),
              ("mcpServers", JSON.obj [("a", JSON.obj [("command", JSON.str "python")]),
                ("b", JSON.obj [("command", JSON.str "node")])])]
            configure_key_name (.obj entries2))⟩ ∧
      entries2 = setKey [("a", JSON.obj [("command", JSON.str "python")]),
          ("b", JSON.obj [("command", JSON.str "node")])] "a" (.obj fields2) ∧
      fields2 = setKey [("command", JSON.str "python")] "disabled" (.bool true) ∧
      lookupKey (setKey [("version", JSON.num 1),
          ("mcpServers", JSON.obj [("a", JSON.obj [("command", JSON.str "python")]),
            ("b", JSON.obj [("command", JSON.str "node")])])]
          configure_key_name (.obj entries2)) configure_key_name = some (.obj entries2) ∧
      (∀ k, k ≠ configure_key_name →
        lookupKey (setKey [("version", JSON.num 1),
            ("mcpServers", JSON.obj [("a", JSON.obj [("command", JSON.str "python")]),
              ("b", JSON.obj [("command", JSON.str "node")])])]
            configure_key_name (.obj entries2)) k =
          lookupKey [("version", JSON.num 1),
            ("mcpServers", JSON.obj [("a", JSON.obj [("command", JSON.str "python")]),
              ("b", JSON.obj [("command", JSON.str "node")])])] k) ∧
      lookupKey entries2 "a" = some (.obj fields2) ∧
      (∀ m, m ≠ "a" → lookupKey entries2 m =
        lookupKey [("a", JSON.obj [("command", JSON.str "python")]),
          ("b", JSON.obj [("command", JSON.str "node")])] m) ∧
      lookupKey fields2 "disabled" = some (.bool true) ∧
      (∀ k, k ≠ "disabled" → lookupKey fields2 k =
        lookupKey [("command", JSON.str "python")] k) :=
  C9_disable_server_frame _ "a"
    [("a", JSON.obj [("command", JSON.str "python")]),
      ("b", JSON.obj [("command", JSON.str "node")])]
    [("command", JSON.str "python")] rfl rfl

theorem disable_saved_servers (config : Document) (name : String) (o : OpOutcome)
    (h : disable_server config name = .ok o) (hs : o.saved.isSome = true) :
    ∃ entries, lookupKey config configure_key_name = some (JSON.obj entries) := by
  cases hA : lookupKey config configure_key_name with
  | none =>
    unfold disable_server at h
    rw [hA] at h
    cases h
    simp at hs
  | some servers =>
    cases servers with
    | obj entries => exact ⟨entries, rfl⟩
    | null =>
      unfold disable_server at h
      rw [hA] at h
      cases h
    | bool b =>
      unfold disable_server at h
      rw [hA] at h
      cases h
    | num n =>
      unfold disable_server at h
      rw [hA] at h
      cases h
    | str s =>
      unfold disable_server at h
      rw [hA] at h
      simp only [pyContains] at h
      cases hb : strContains s name
      · rw [hb] at h
        cases h
        simp at hs
      · rw [hb] at h
        cases h
    | arr es =>
      unfold disable_server at h
      rw [hA] at h
      simp only [pyContains] at h
      cases hb : es.any fun e => match e with | .str s => s == name | _ => false
      · rw [hb] at h
        cases h
        simp at hs
      · rw [hb] at h
        cases h

theorem enable_saved_servers (config : Document) (name : String) (o : OpOutcome)
    (h : enable_server config name = .ok o) (hs : o.saved.isSome = true) :
    ∃ entries, lookupKey config configure_key_name = some (JSON.obj entries) := by
  cases hA : lookupKey config configure_key_name with
  | none =>
    unfold enable_server at h
    rw [hA] at h
    cases h
    simp at hs
  | some servers =>
    cases servers with
    | obj entries => exact ⟨entries, rfl⟩
    | null =>
      unfold enable_server at h
      rw [hA] at h
      cases h
    | bool b =>
      unfold enable_server at h
      rw [hA] at h
      cases h
    | num n =>
      unfold enable_server at h
      rw [hA] at h
      cases h
    | str s =>
      unfold enable_server at h
      rw [hA] at h
      simp only [pyContains] at h
      cases hb : strContains s name
      · rw [hb] at h
        cases h
        simp at hs
      · rw [hb] at h
        cases h
    | arr es =>
      unfold enable_server at h
      rw [hA] at h
      simp only [pyContains] at h
      cases hb : es.any fun e => match e with | .str s => s == name | _ => false
      · rw [hb] at h
        cases h
        simp at hs
      · rw [hb] at h
        cases h

/-- C7: the `mcpServers` key is present as a mapping before any server-level mutation goes
through: loading a missing or unparsable file yields the empty template, which contains
`mcpServers` as a mapping, and whenever `disable_server` or `enable_server` actually writes
a document back (a mutation was performed on the loaded document), the loaded document had
`mcpServers` present as a mapping. -/
theorem C7_mcpServers_invariant (fs : FileState) (name : String) :
    lookupKey (load_config .missing) configure_key_name = some (JSON.obj []) ∧
    lookupKey (load_config .invalid) configure_key_name = some (JSON.obj []) ∧
    (∀ o, disable_server (load_config fs) name = .ok o → o.saved.isSome = true →
      ∃ entries, lookupKey (load_config fs) configure_key_name = some (JSON.obj entries)) ∧
    (∀ o, enable_server (load_config fs) name = .ok o → o.saved.isSome = true →
      ∃ entries, lookupKey (load_config fs) configure_key_name = some (JSON.obj entries)) :=
  ⟨rfl, rfl,
   fun o h hs => disable_saved_servers (load_config fs) name o h hs,
   fun o h hs => enable_saved_servers (load_config fs) name o h hs⟩

/-- Witness for C7: a valid file whose document holds one active server; disabling it
writes, and the loaded document indeed had `mcpServers` as a mapping. -/
theorem C7_witness :
    lookupKey (load_config .missing) configure_key_name = some (JSON.obj []) ∧
    lookupKey (load_config .invalid) configure_key_name = some (JSON.obj []) ∧
    (∃ entries, lookupKey
      (load_config (.valid [("mcpServers", JSON.obj [("s", JSON.obj [])])]))
      configure_key_name = some (JSON.obj entries)) ∧
    (∃ entries, lookupKey
      (load_config (.valid [("mcpServers", JSON.obj [("s", JSON.obj
        [("disabled", JSON.bool true)])])]))
      configure_key_name = some (JSON.obj entries)) := by
  have h := C7_mcpServers_invariant (.valid [("mcpServers", JSON.obj [("s", JSON.obj [])])]) "s"
  have h' := C7_mcpServers_invariant
    (.valid [("mcpServers", JSON.obj [("s", JSON.obj [("disabled", JSON.bool true)])])]) "s"
  exact ⟨h.1, h.2.1,
    h.2.2.1 ⟨true, false, some (setKey [("mcpServers", JSON.obj [("s", JSON.obj [])])]
      configure_key_name (.obj (setKey [("s", JSON.obj [])] "s"
        (.obj (setKey [] "disabled" (.bool true))))))⟩ rfl rfl,
    h'.2.2.2 ⟨true, false, some (setKey
      [("mcpServers", JSON.obj [("s", JSON.obj [("disabled", JSON.bool true)])])]
      configure_key_name (.obj (setKey [("s", JSON.obj [("disabled", JSON.bool true)])] "s"
        (.obj (delKey [("disabled", JSON.bool true)] "disabled")))))⟩ rfl rfl⟩

theorem goodEntryState_elim {d : Document} {name : String}
    (h : goodEntryState d name = true) :
    ∃ entries fields, lookupKey d configure_key_name = some (JSON.obj entries) ∧
      lookupKey entries name = some (JSON.obj fields) ∧
      (lookupKey fields "disabled" = none ∨
        lookupKey fields "disabled" = some (JSON.bool true)) := by
  unfold goodEntryState at h
  cases hA : lookupKey d configure_key_name with
  | none =>
    simp only [hA] at h
    cases h
  | some servers =>
    simp only [hA] at h
    cases servers with
    | obj entries =>
      cases hE : lookupKey entries name with
      | none =>
        simp only [hE] at h
        cases h
      | some e =>
        simp only [hE] at h
        cases e with
        | obj fields =>
          cases hD : lookupKey fields "disabled" with
          | none => exact ⟨entries, fields, rfl, hE, Or.inl hD⟩
          | some v =>
            simp only [hD] at h
            exact ⟨entries, fields, rfl, hE, Or.inr (by rw [hD, (isPyTrue_iff v).mp h])⟩
        | null => simp at h
        | bool b => simp at h
        | num n => simp at h
        | str s => simp at h
        | arr es => simp at h
    | null => simp at h
    | bool b => simp at h
    | num n => simp at h
    | str s => simp at h
    | arr es => simp at h

theorem goodEntryState_applyOp (d : Document) (name : String) (op : Op)
    (h : goodEntryState d name = true) :
    goodEntryState (applyOp d op name) name = true := by
  obtain ⟨entries, fields, hA, hE, hD⟩ := goodEntryState_elim h
  cases op with
  | disable =>
    have hop := disable_server_found d name entries fields hA hE
    have happ : applyOp d .disable name =
        setKey d configure_key_name
          (.obj (setKey entries name (.obj (setKey fields "disabled" (.bool true))))) := by
      simp [applyOp, hop, applyOutcome]
    rw [happ]
    simp [goodEntryState, lookupKey_setKey_self, isPyTrue]
  | enable =>
    rcases hD with hD | hD
    · have hop := enable_server_already_enabled d name entries fields hA hE hD
      have happ : applyOp d .enable name = d := by
        simp [applyOp, hop, applyOutcome]
      rw [happ]
      exact h
    · have hop := enable_server_found d name entries fields (JSON.bool true) hA hE hD
      have happ : applyOp d .enable name =
          setKey d configure_key_name
            (.obj (setKey entries name (.obj (delKey fields "disabled")))) := by
        simp [applyOp, hop, applyOutcome]
      rw [happ]
      simp [goodEntryState, lookupKey_setKey_self, lookupKey_delKey_self]

/-- C8: starting from an entry in one of the two model states — active (no `disabled` key)
or disabled (`disabled: true`) — every sequence of `disable_server` / `enable_server`
calls keeps the entry in one of those two states; in particular no reachable stored
document ever has the entry's `disabled` key set to the boolean `false`. -/
theorem C8_state_machine (d : Document) (name : String) (ops : List Op)
    (h : goodEntryState d name = true) :
    goodEntryState (runOps d name ops) name = true ∧
    ∀ entries fields,
      lookupKey (runOps d name ops) configure_key_name = some (JSON.obj entries) →
      lookupKey entries name = some (JSON.obj fields) →
      lookupKey fields "disabled" ≠ some (JSON.bool false) := by
  have hrun : goodEntryState (runOps d name ops) name = true := by
    induction ops generalizing d with
    | nil => exact h
    | cons op rest ih => exact ih (applyOp d op name) (goodEntryState_applyOp d name op h)
  refine ⟨hrun, ?_⟩
  intro entries fields h1 h2 h3
  obtain ⟨entries', fields', hA', hE', hD'⟩ := goodEntryState_elim hrun
  obtain rfl : entries' = entries := JSON.obj.inj (Option.some.inj (hA'.symm.trans h1))
  obtain rfl : fields' = fields := JSON.obj.inj (Option.some.inj (hE'.symm.trans h2))
  rcases hD' with hD' | hD'
  · rw [hD'] at h3
    cases h3
  · rw [hD'] at h3
    cases Option.some.inj h3

/-- Witness for C8: five alternating calls on a concrete active entry land back in a model
state. -/
theorem C8_witness :
    goodEntryState
      (runOps [("mcpServers", JSON.obj [("s", JSON.obj [("command", JSON.str "python")])])]
        "s" [.disable, .disable, .enable, .enable, .disable]) "s" = true :=
  (C8_state_machine [("mcpServers", JSON.obj [("s", JSON.obj [("command", JSON.str "python")])])]
    "s" [.disable, .disable, .enable, .enable, .disable] rfl).1

/-- C6 counterexample: an explicitly supplied empty-string path is not stored verbatim —
the constructor's truthiness test `if config_path:` treats `""` as absent, so platform
resolution runs and the stored path is the Linux default, not `""`. -/
theorem C6_counterexample :
    initConfigPath (some "") "Linux" none "/home/user" =
      "/home/user/.config/Code/User/globalStorage/kilocode.kilo-code/settings/mcp_settings.json" ∧
    initConfigPath (some "") "Linux" none "/home/user" ≠ "" := by
  exact ⟨rfl, by decide⟩

/-- C6 (amended): with no explicit path, the stored path is a pure three-branch function of
the OS identity — `"Darwin"` home-expands the Library path, `"Windows"` joins `APPDATA`
(the empty string substituted when unset) with the fixed tail, and any other identity
home-expands the `.config` path; a non-empty explicit path is stored verbatim and overrides
resolution entirely, while an empty explicit path falls back to resolution (Python
truthiness of `if config_path:`). -/
theorem C6_path_resolution (system appdata_s home p : String) (appdata : Option String) :
    (resolveConfigPath "Darwin" appdata home =
      expanduser home "~/Library/Application Support/Code/User/globalStorage/kilocode.kilo-code/settings/mcp_settings.json") ∧
    (resolveConfigPath "Windows" (some appdata_s) home = ntJoin appdata_s kiloPathTail) ∧
    (resolveConfigPath "Windows" none home = ntJoin "" kiloPathTail) ∧
    (ntJoin "" kiloPathTail =
      "Code\\User\\globalStorage\\kilocode.kilo-code\\settings\\mcp_settings.json") ∧
    (system ≠ "Darwin" → system ≠ "Windows" →
      resolveConfigPath system appdata home =
        expanduser home "~/.config/Code/User/globalStorage/kilocode.kilo-code/settings/mcp_settings.json") ∧
    (p ≠ "" → initConfigPath (some p) system appdata home = p) ∧
    (initConfigPath (some "") system appdata home = resolveConfigPath system appdata home) ∧
    (initConfigPath none system appdata home = resolveConfigPath system appdata home) := by
  refine ⟨rfl, rfl, rfl, rfl, ?_, ?_, rfl, rfl⟩
  · intro h1 h2
    simp [resolveConfigPath, h1, h2]
  · intro hp
    simp [initConfigPath, hp]

/-- Witness for C6 discharging the conditional branches at concrete inputs: a Linux
identity resolves to the `.config` path and a non-empty custom path is stored verbatim. -/
theorem C6_witness :
    resolveConfigPath "Linux" none "/home/user" =
      expanduser "/home/user"
        "~/.config/Code/User/globalStorage/kilocode.kilo-code/settings/mcp_settings.json" ∧
    initConfigPath (some "/custom/path/config.json") "Linux" none "/home/user" =
      "/custom/path/config.json" :=
  ⟨(C6_path_resolution "Linux" "C:\\Users\\Test\\AppData\\Roaming" "/home/user"
      "/custom/path/config.json" none).2.2.2.2.1 (by decide) (by decide),
   (C6_path_resolution "Linux" "C:\\Users\\Test\\AppData\\Roaming" "/home/user"
      "/custom/path/config.json" none).2.2.2.2.2.1 (by decide)⟩

end KiloCode
